import Mathlib

/-!
Verification development for the iot-terminal repository: an ESP32 BLE
temperature peripheral (src/esp32_ble_temperature.ino) and browser central
controllers (src/js/ble.js and the two script variants in src/unnamed/part_000).

The embedding is shallow: each source function becomes a Lean function over an
explicit state record.  Transport writes (BLE notify on the peripheral,
characteristic writeValue on the central) are modelled as lists of the strings
written; Serial debug prints and DOM cosmetics (CSS, animation, timestamps,
the 100-line terminal cap) are not modelled.  Byte sequences on the wire are
modelled at the text level: the UTF-8 encode/decode pair at the transport
boundary is treated as the identity on well-formed text.
-/

namespace IotTerminal

/-! ## Shared text primitives

Arduino String::trim removes leading and trailing characters satisfying C
isspace; the JS String.trim used by the central removes the same ASCII set
(JS additionally trims non-ASCII Unicode whitespace, which no message in this
protocol contains, so the ASCII set is the faithful common model). -/

/-- The C isspace set: space, tab, newline, vertical tab, form feed, carriage
return. -/
def isSpaceWS (c : Char) : Bool :=
  c = ' ' || c = '\t' || c = '\n' || c = '\x0b' || c = '\x0c' || c = '\r'

/-- Trim on the character list: drop the isspace run at both ends. -/
def trimL (cs : List Char) : List Char :=
  ((cs.dropWhile isSpaceWS).reverse.dropWhile isSpaceWS).reverse

/-- Surrounding-whitespace trim, as Arduino String::trim and JS String.trim. -/
def trimText (s : String) : String := ⟨trimL s.data⟩

/-- Arduino String::toUpperCase on one character: ASCII a..z to A..Z. -/
def upChar (c : Char) : Char :=
  if 'a' ≤ c ∧ c ≤ 'z' then Char.ofNat (c.toNat - 32) else c

/-- Arduino String::toUpperCase. -/
def toUpperText (s : String) : String := ⟨s.data.map upChar⟩

/-- Arduino String(float, 1): fixed one-decimal rendering.  Sensor readings are
modelled in tenths of a unit (an Int), so the one-decimal rendering is exact. -/
def fmt1 (x : Int) : String :=
  (if x < 0 then "-" else "") ++ toString (x.natAbs / 10) ++ "." ++ toString (x.natAbs % 10)

/-! ## Peripheral controller (src/esp32_ble_temperature.ino) -/

namespace Esp32

/-- One DHT acquisition: dht.readTemperature / dht.readHumidity, in tenths of
a degree / percent.  `none` models an isnan (failed) read. -/
structure Reading where
  temperature : Option Int
  humidity : Option Int
deriving DecidableEq

/-- The peripheral's mutable globals: LED pin level, the two connection flags
and the telemetry timer (an unsigned long, kept below 2^32). -/
structure PState where
  led : Bool
  deviceConnected : Bool
  oldDeviceConnected : Bool
  lastTempUpdate : Nat
deriving DecidableEq

/-- sendMessage: notify the TX characteristic only while a client is
connected; otherwise the message is dropped (no queue). -/
def sendMessage (deviceConnected : Bool) (message : String) : List String :=
  if deviceConnected then [message] else []

/-- sendTemperatureData: read both DHT fields; on any failed read push the
fixed error literal, otherwise push the formatted telemetry line.  Returns the
(unchanged) state plus the list of BLE notifications performed. -/
def sendTemperatureData (r : Reading) (st : PState) : PState × List String :=
  match r.temperature, r.humidity with
  | some temperature, some humidity =>
      (st, sendMessage st.deviceConnected
        ("Temperature: " ++ fmt1 temperature ++ " °C | Humidity: " ++ fmt1 humidity ++ " %"))
  | _, _ =>
      (st, sendMessage st.deviceConnected "Error: Sensor read failed!")

/-- processCommand: upper-case the (already trimmed) command in place, then
dispatch by exact string match. -/
def processCommand (r : Reading) (st : PState) (command0 : String) : PState × List String :=
  let command := toUpperText command0
  if command = "STATUS" then
    match r.temperature, r.humidity with
    | some temp, some hum =>
        (st, sendMessage st.deviceConnected
          ("Status: Temperature=" ++ fmt1 temp ++ "°C, Humidity=" ++ fmt1 hum ++
           "%, LED=" ++ (if st.led then "ON" else "OFF")))
    | _, _ => (st, sendMessage st.deviceConnected "Status: Sensor Error!")
  else if command = "LED ON" || command = "LEDON" then
    ({ st with led := true }, sendMessage st.deviceConnected "LED turned ON")
  else if command = "LED OFF" || command = "LEDOFF" then
    ({ st with led := false }, sendMessage st.deviceConnected "LED turned OFF")
  else if command = "TEMP" then
    sendTemperatureData r st
  else if command = "HELLO" || command = "HI" then
    (st, sendMessage st.deviceConnected "Hello! ESP32 Temperature Sensor ready!")
  else if command = "HELP" then
    (st, sendMessage st.deviceConnected "Commands: STATUS, LED ON, LED OFF, TEMP, HELLO, HELP")
  else
    (st, sendMessage st.deviceConnected ("Unknown command: " ++ command ++ ". Try HELP"))

/-- MyCallbacks::onWrite, the peripheral's onCommandReceived: ignore an empty
write, otherwise trim the received text and dispatch it. -/
def onWrite (r : Reading) (st : PState) (rxValue : String) : PState × List String :=
  if 0 < rxValue.length then processCommand r st (trimText rxValue)
  else (st, [])

/-- handleBLEConnection: on a disconnect edge restart advertising (not part of
the state model) and latch the flag; on a connect edge latch the flag. -/
def handleBLEConnection (st : PState) : PState :=
  let st1 := if !st.deviceConnected && st.oldDeviceConnected then
    { st with oldDeviceConnected := st.deviceConnected } else st
  if st1.deviceConnected && !st1.oldDeviceConnected then
    { st1 with oldDeviceConnected := st1.deviceConnected } else st1

/-- The 32-bit modulus (2 to the 32) of the unsigned long millis clock. -/
def M32 : Nat := 4294967296

/-- C unsigned 32-bit subtraction, the loop's elapsed-time computation
currentMillis - lastTempUpdate. -/
def subw (a b : Nat) : Nat := (a % M32 + M32 - b % M32) % M32

/-- One iteration of loop(): handle connection edges, then, when connected and
at least tempUpdateInterval = 2000 ms have elapsed (unsigned arithmetic),
reset the timer to the current clock and send telemetry. -/
def loopTick (r : Reading) (currentMillis : Nat) (st : PState) : PState × List String :=
  let st1 := handleBLEConnection st
  if st1.deviceConnected then
    if 2000 ≤ subw currentMillis st1.lastTempUpdate then
      sendTemperatureData r { st1 with lastTempUpdate := currentMillis }
    else (st1, [])
  else (st1, [])

end Esp32

/-! ## Central controller (src/js/ble.js) -/

namespace BleJs

/-- The module-level state of ble.js that the claims touch: the connected
flag, nullability of rxCharacteristic, the command input field, the live
temperature display (tempValue.textContent), controls enablement, the
terminal sink as a list of (category, text) lines, and the transport writes
performed (each entry is the text whose UTF-8 encoding was written).
DOM handles (terminal, commandInput, tempValue, the buttons) are modelled as
present; timestamps, CSS and the 100-line display cap are not modelled. -/
structure CState where
  isConnected : Bool
  hasRxCharacteristic : Bool
  commandInputValue : String
  tempValue : String
  controlsEnabled : Bool
  terminal : List (String × String)
  writes : List String
deriving DecidableEq

/-- addTerminalLine: append one (category, text) line to the terminal sink. -/
def addTerminalLine (st : CState) (pre text : String) : CState :=
  { st with terminal := st.terminal ++ [(pre, text)] }

/-- updateTemperature: set the live numeric display to the matched text. -/
def updateTemperature (st : CState) (temp : String) : CState :=
  { st with tempValue := temp }

/-- updateConnectionStatus: enable the input controls when connected; when
disconnected, disable them and reset the temperature display to the dashes. -/
def updateConnectionStatus (st : CState) (connected : Bool) : CState :=
  if connected then { st with controlsEnabled := true }
  else { st with controlsEnabled := false, tempValue := "--" }

/-- onDisconnected (the gattserverdisconnected handler): immediately log the
disconnect line, clear the connected flag and reset the UI.  ble.js installs
no timer here: there is no deferred or cancellable pending update. -/
def onDisconnected (st : CState) : CState :=
  let st1 := addTerminalLine st "SYSTEM" "ESP32 disconnected!"
  let st2 := { st1 with isConnected := false }
  updateConnectionStatus st2 false

/-- List-level scan for a left-to-right occurrence test: does the needle occur
starting exactly here? Returns the remainder after the needle on success. -/
def dropNeedle : List Char → List Char → Option (List Char)
  | [], rest => some rest
  | _ :: _, [] => none
  | p :: ps, c :: cs => if p = c then dropNeedle ps cs else none

/-- JS String.prototype.includes, restricted to a nonempty needle. -/
def containsNeedle (needle : List Char) : List Char → Bool
  | [] => (dropNeedle needle ([] : List Char)).isSome
  | c :: cs => (dropNeedle needle (c :: cs)).isSome || containsNeedle needle cs

/-- The character class [\d.] of the regex. -/
def isDigitDot (c : Char) : Bool := c.isDigit || c = '.'

/-- The regex \s class, on the ASCII whitespace this protocol can carry. -/
def isJsSpace (c : Char) : Bool := isSpaceWS c

/-- Left-to-right search of /Temperature:\s*([\d.]+)/ : at each position try
the literal, skip the whitespace run, and capture a nonempty maximal [\d.]
run; on failure resume the search one character later. -/
def tempSearch : List Char → Option (List Char)
  | [] => none
  | c :: cs =>
    match dropNeedle "Temperature:".data (c :: cs) with
    | some rest =>
        let digits := (rest.dropWhile isJsSpace).takeWhile isDigitDot
        if digits.isEmpty then tempSearch cs else some digits
    | none => tempSearch cs

/-- The capture group of data.match(/Temperature:\s*([\d.]+)/), or none. -/
def tempMatch (data : String) : Option String :=
  (tempSearch data.data).map fun cs => ⟨cs⟩

/-- handleNotification: decode the notification as UTF-8 (identity in this
text-level model), trim it; a line containing "Temperature:" whose number
matches updates the display and is echoed with the antenna glyph; a line
without "Temperature:" is echoed raw; a line containing "Temperature:" whose
number does not match falls through both branches untouched. -/
def handleNotification (st : CState) (raw : String) : CState :=
  let data := trimText raw
  if containsNeedle "Temperature:".data data.data then
    match tempMatch data with
    | some temp => addTerminalLine (updateTemperature st temp) "ESP32" ("📡 " ++ data)
    | none => st
  else
    addTerminalLine st "ESP32" data

/-- sendCommandToESP32: reject with a logged error when disconnected or the
rxCharacteristic handle is null; otherwise perform exactly one writeValue of
the command with a trailing newline and echo it to the terminal. -/
def sendCommandToESP32 (st : CState) (command : String) : CState :=
  if !st.isConnected || !st.hasRxCharacteristic then
    addTerminalLine st "ERROR" "Not connected to ESP32!"
  else
    let st1 := { st with writes := st.writes ++ [command ++ "\n"] }
    addTerminalLine st1 "YOU" ("→ " ++ command)

/-- sendCommand: take the optional string argument, else the input field;
trim; do nothing when the result is empty; otherwise delegate to
sendCommandToESP32 and clear the input field. -/
def sendCommand (st : CState) (arg : Option String) : CState :=
  let command := match arg with
    | some s => trimText s
    | none => trimText st.commandInputValue
  if command = "" then st
  else
    let st1 := sendCommandToESP32 st command
    { st1 with commandInputValue := "" }

/-! ### initializeApp (ble.js lines 39–82)

The brace that opens the `if (!navigator.bluetooth)` support check at line 41
is next matched by the closing brace at line 82: the whole setup block —
the DOM lookups (lines 48–57), the event-listener registrations (lines
60–75) and the two "Application initialized" terminal lines (77, 81) — sits
inside that if, after the `return` at line 45.  (The function brace itself is
then left unmatched at the end of the file.)  The body is embedded as a
statement list executed with early-return semantics, so the dead statements
appear exactly where the source has them. -/

/-- One statement of the initializeApp body. -/
inductive InitStmt where
  | consoleError (msg : String)
  | earlyReturn
  | lookup (id : String)
  | listen (target event : String)
  | terminalLine (pre msg : String)
  | disableConnect
deriving DecidableEq

/-- The observable effects of running an initializeApp body. -/
structure InitEffects where
  console : List String
  lookups : List String
  listeners : List (String × String)
  terminal : List (String × String)
deriving DecidableEq

/-- One step of the statement interpreter. -/
def applyInitStmt (e : InitEffects) : InitStmt → InitEffects
  | .consoleError m => { e with console := e.console ++ [m] }
  | .earlyReturn => e
  | .lookup id => { e with lookups := e.lookups ++ [id] }
  | .listen t ev => { e with listeners := e.listeners ++ [(t, ev)] }
  | .terminalLine p m => { e with terminal := e.terminal ++ [(p, m)] }
  | .disableConnect => e

/-- Run a statement list, stopping at the first early return. -/
def runInit : List InitStmt → InitEffects → InitEffects
  | [], e => e
  | .earlyReturn :: _, e => e
  | s :: rest, e => runInit rest (applyInitStmt e s)

/-- Lines 48–81 of ble.js: the DOM lookups, listener registrations and the
two duplicated "Application initialized" terminal lines. -/
def setupStmts : List InitStmt :=
  [ .lookup "connectBtn", .lookup "statusDot", .lookup "statusText",
    .lookup "terminal", .lookup "clearBtn", .lookup "commandInput",
    .lookup "sendBtn", .lookup "commandButtons", .lookup "tempValue",
    .lookup "lastUpdate",
    .listen "connectBtn" "click", .listen "clearBtn" "click",
    .listen "sendBtn" "click", .listen "commandInput" "keypress",
    .listen "commandButtons" "click",
    .terminalLine "SYSTEM" "Application initialized. Bluetooth ready.",
    .disableConnect,
    .terminalLine "SYSTEM" "Application initialized. Bluetooth ready." ]

/-- The body of initializeApp as the braces of ble.js nest it: when Web
Bluetooth is unsupported, the support-check block runs — it logs the console
error, returns at line 45, and the setup statements after the return are dead;
when Web Bluetooth is supported, the whole block (which contains all of the
setup code) is skipped. -/
def initializeAppBody (bluetoothSupported : Bool) : List InitStmt :=
  if !bluetoothSupported then
    .consoleError "Web Bluetooth API not supported! Use Chrome on Android or Desktop."
      :: .earlyReturn :: setupStmts
  else []

/-- initializeApp of ble.js. -/
def initializeApp (bluetoothSupported : Bool) : InitEffects :=
  runInit (initializeAppBody bluetoothSupported) ⟨[], [], [], []⟩

end BleJs

/-! ## Central controller variant (second script of src/unnamed/part_000) -/

namespace Part000

/-- State of the part_000 variant: same shape as the ble.js model (the
variant has no rxCharacteristic null-check in sendCommand). -/
structure CState where
  isConnected : Bool
  commandInputValue : String
  terminal : List (String × String)
  writes : List String
deriving DecidableEq

/-- addTerminalLine of the variant. -/
def addTerminalLine (st : CState) (pre text : String) : CState :=
  { st with terminal := st.terminal ++ [(pre, text)] }

/-- sendCommand of the second part_000 script: reject with a logged error
when disconnected; then read the raw input field text — note: without trim —
return when it is the empty string, else perform one writeValue of the text
plus a newline, echo it, and clear the field. -/
def sendCommand (st : CState) : CState :=
  if !st.isConnected then
    addTerminalLine st "ERROR" "Not connected."
  else
    let text := st.commandInputValue
    if text = "" then st
    else
      let st1 := { st with writes := st.writes ++ [text ++ "\n"] }
      let st2 := addTerminalLine st1 "YOU" text
      { st2 with commandInputValue := "" }

end Part000

/-! ## Helper lemmas for the peripheral -/

namespace Esp32

lemma trimText_ne_of_up {s tok : String} (h : toUpperText (trimText s) = tok)
    (htok : tok ≠ "") : trimText s ≠ "" := by
  intro he
  rw [he] at h
  have hup : toUpperText "" = "" := by decide
  rw [hup] at h
  exact htok h.symm

lemma length_pos_of_ne_empty {s : String} (h : s ≠ "") : 0 < s.length := by
  obtain ⟨data⟩ := s
  cases data with
  | nil => exact absurd (by decide) h
  | cons c cs => simp [String.length]

lemma length_pos_of_trim_ne {s : String} (h : trimText s ≠ "") : 0 < s.length := by
  apply length_pos_of_ne_empty
  intro he
  rw [he] at h
  exact h (by decide)

lemma onWrite_eq_processCommand {r : Reading} {st : PState} {s : String}
    (h : trimText s ≠ "") :
    onWrite r st s = processCommand r st (trimText s) := by
  simp [onWrite, length_pos_of_trim_ne h]

lemma handleBLEConnection_fields (st : PState) :
    (handleBLEConnection st).deviceConnected = st.deviceConnected ∧
    (handleBLEConnection st).lastTempUpdate = st.lastTempUpdate := by
  obtain ⟨l, d, o, t⟩ := st
  cases d <;> cases o <;> simp [handleBLEConnection]

/-! ## Claims about the peripheral -/

/-- C1: for every command token of the dispatch table (STATUS, LED ON, LEDON,
LED OFF, LEDOFF, TEMP, HELLO, HI, HELP), onWrite applied to any byte sequence
that trims and upper-cases to that token performs the specified side effect
and replies exactly the specified message: dispatch is case-insensitive and
whitespace-trim-insensitive with exact replies. -/
theorem dispatch_table_correct (r : Reading) (st : PState) (s : String)
    (hconn : st.deviceConnected = true) :
    (toUpperText (trimText s) = "STATUS" →
      onWrite r st s = (st,
        [match r.temperature, r.humidity with
         | some temp, some hum =>
             "Status: Temperature=" ++ fmt1 temp ++ "°C, Humidity=" ++ fmt1 hum ++
               "%, LED=" ++ (if st.led then "ON" else "OFF")
         | _, _ => "Status: Sensor Error!"])) ∧
    ((toUpperText (trimText s) = "LED ON" ∨ toUpperText (trimText s) = "LEDON") →
      onWrite r st s = ({ st with led := true }, ["LED turned ON"])) ∧
    ((toUpperText (trimText s) = "LED OFF" ∨ toUpperText (trimText s) = "LEDOFF") →
      onWrite r st s = ({ st with led := false }, ["LED turned OFF"])) ∧
    (toUpperText (trimText s) = "TEMP" →
      onWrite r st s = (st,
        [match r.temperature, r.humidity with
         | some temp, some hum =>
             "Temperature: " ++ fmt1 temp ++ " °C | Humidity: " ++ fmt1 hum ++ " %"
         | _, _ => "Error: Sensor read failed!"])) ∧
    ((toUpperText (trimText s) = "HELLO" ∨ toUpperText (trimText s) = "HI") →
      onWrite r st s = (st, ["Hello! ESP32 Temperature Sensor ready!"])) ∧
    (toUpperText (trimText s) = "HELP" →
      onWrite r st s = (st, ["Commands: STATUS, LED ON, LED OFF, TEMP, HELLO, HELP"])) := by
  refine ⟨?_, ?_, ?_, ?_, ?_, ?_⟩
  · intro h
    rw [onWrite_eq_processCommand (trimText_ne_of_up h (by decide))]
    obtain ⟨rt, rh⟩ := r
    cases rt <;> cases rh <;> simp [processCommand, h, sendMessage, hconn]
  · rintro (h | h) <;>
      · rw [onWrite_eq_processCommand (trimText_ne_of_up h (by decide))]
        simp [processCommand, h, sendMessage, hconn]
  · rintro (h | h) <;>
      · rw [onWrite_eq_processCommand (trimText_ne_of_up h (by decide))]
        simp [processCommand, h, sendMessage, hconn]
  · intro h
    rw [onWrite_eq_processCommand (trimText_ne_of_up h (by decide))]
    obtain ⟨rt, rh⟩ := r
    cases rt <;> cases rh <;>
      simp [processCommand, h, sendTemperatureData, sendMessage, hconn]
  · rintro (h | h) <;>
      · rw [onWrite_eq_processCommand (trimText_ne_of_up h (by decide))]
        simp [processCommand, h, sendMessage, hconn]
  · intro h
    rw [onWrite_eq_processCommand (trimText_ne_of_up h (by decide))]
    simp [processCommand, h, sendMessage, hconn]

/-- C1 witness: the mixed-case, whitespace-padded write "  led on  " turns the
LED on and replies exactly "LED turned ON". -/
theorem dispatch_table_correct_witness :
    Esp32.onWrite ⟨some 255, some 602⟩ ⟨false, true, true, 0⟩ "  led on  " =
      (⟨true, true, true, 0⟩, ["LED turned ON"]) :=
  (Esp32.dispatch_table_correct ⟨some 255, some 602⟩ ⟨false, true, true, 0⟩ "  led on  "
    rfl).2.1 (Or.inl (by decide))

/-- C2: sendTemperatureData on a successful reading pushes exactly the
one-decimal telemetry line with the literal degree symbol; on a reading with
either field absent it pushes exactly the error literal; in both cases the
peripheral state (including the telemetry timer) is unchanged and the
function returns normally. -/
theorem sendTelemetry_spec (r : Reading) (st : PState)
    (hconn : st.deviceConnected = true) :
    (∀ t h, r.temperature = some t → r.humidity = some h →
      sendTemperatureData r st =
        (st, ["Temperature: " ++ fmt1 t ++ " °C | Humidity: " ++ fmt1 h ++ " %"])) ∧
    ((r.temperature = none ∨ r.humidity = none) →
      sendTemperatureData r st = (st, ["Error: Sensor read failed!"])) := by
  obtain ⟨rt, rh⟩ := r
  constructor
  · intro t h ht hh
    simp only at ht hh
    subst ht; subst hh
    simp [sendTemperatureData, sendMessage, hconn]
  · intro h
    cases rt <;> cases rh <;>
      simp_all [sendTemperatureData, sendMessage, hconn]

/-- C2 witness: a failed humidity read pushes exactly the error literal and
leaves the state untouched. -/
theorem sendTelemetry_spec_witness :
    Esp32.sendTemperatureData ⟨some 255, none⟩ ⟨false, true, false, 1500⟩ =
      (⟨false, true, false, 1500⟩, ["Error: Sensor read failed!"]) :=
  (Esp32.sendTelemetry_spec ⟨some 255, none⟩ ⟨false, true, false, 1500⟩ rfl).2
    (Or.inr rfl)

/-- C3 counterexample: a whitespace-only write is nonempty, so it passes the
length guard of onWrite, trims to the empty command and falls into the
unknown-command branch — it replies "Unknown command: . Try HELP" instead of
being ignored. -/
theorem whitespace_write_replies_cex :
    (Esp32.onWrite ⟨some 255, some 602⟩ ⟨false, true, false, 0⟩ " ").2 =
      ["Unknown command: . Try HELP"] := by decide

/-- C3 amended: a write of the empty byte sequence produces no reply and no
state change; a nonempty write that trims to empty is not ignored — it falls
through to the unknown-command branch, replying exactly
"Unknown command: . Try HELP" while still changing no state; dispatch is a
total function either way. -/
theorem empty_command_behavior (r : Reading) (st : PState) (s : String)
    (hconn : st.deviceConnected = true) :
    (onWrite r st "" = (st, [])) ∧
    (s ≠ "" → trimText s = "" →
      onWrite r st s = (st, ["Unknown command: . Try HELP"])) := by
  constructor
  · simp [onWrite, String.length]
  · intro hs he
    have h0 : onWrite r st s = processCommand r st (trimText s) := by
      simp [onWrite, length_pos_of_ne_empty hs]
    have hup : toUpperText "" = "" := by decide
    rw [h0, he]
    simp [processCommand, sendMessage, hconn, hup]

/-- C3 witness: the single-space write replies the unknown-command line. -/
theorem empty_command_behavior_witness :
    Esp32.onWrite ⟨some 255, some 602⟩ ⟨false, true, false, 0⟩ " " =
      (⟨false, true, false, 0⟩, ["Unknown command: . Try HELP"]) :=
  (Esp32.empty_command_behavior ⟨some 255, some 602⟩ ⟨false, true, false, 0⟩ " "
    rfl).2 (by decide) (by decide)

/-- C4 counterexample: the unknown-command reply echoes the upper-cased
command, not the received text: the write "foo" is answered with
"Unknown command: FOO. Try HELP", which differs from the claimed
"Unknown command: foo. Try HELP". -/
theorem unknown_reply_uppercased_cex :
    (Esp32.onWrite ⟨some 255, some 602⟩ ⟨false, true, false, 0⟩ "foo").2 =
      ["Unknown command: FOO. Try HELP"] ∧
    ("Unknown command: FOO. Try HELP" : String) ≠ "Unknown command: foo. Try HELP" := by
  decide

/-- C4 amended: for every trimmed nonempty command matching no vocabulary
token, onWrite performs no side effect and replies exactly
"Unknown command: X. Try HELP" where X is the trimmed, upper-cased command
text (Arduino toUpperCase mutates the command before the reply is built), so
the received text appears upper-cased, not verbatim. -/
theorem unknown_command_reply (r : Reading) (st : PState) (s : String)
    (hconn : st.deviceConnected = true)
    (hne : trimText s ≠ "")
    (hnot : toUpperText (trimText s) ∉ (["STATUS", "LED ON", "LEDON", "LED OFF",
      "LEDOFF", "TEMP", "HELLO", "HI", "HELP"] : List String)) :
    onWrite r st s =
      (st, ["Unknown command: " ++ toUpperText (trimText s) ++ ". Try HELP"]) := by
  rw [onWrite_eq_processCommand hne]
  simp only [List.mem_cons, List.mem_singleton, not_or] at hnot
  obtain ⟨h1, h2, h3, h4, h5, h6, h7, h8, h9, _⟩ := hnot
  simp [processCommand, sendMessage, hconn, h1, h2, h3, h4, h5, h6, h7, h8, h9]

/-- C4 witness: the write "foo" (already covered by the vocabulary-miss
hypotheses) replies with the upper-cased echo and changes no state. -/
theorem unknown_command_reply_witness :
    Esp32.onWrite ⟨some 255, some 602⟩ ⟨false, true, false, 0⟩ "foo" =
      (⟨false, true, false, 0⟩, ["Unknown command: FOO. Try HELP"]) :=
  Esp32.unknown_command_reply ⟨some 255, some 602⟩ ⟨false, true, false, 0⟩ "foo"
    rfl (by decide) (by decide)

/-- C5: while no peer is connected, the peripheral performs no transport
write and no queuing: sendTemperatureData leaves the state untouched and
notifies nothing, and sendMessage drops every outgoing message. -/
theorem no_write_when_disconnected (r : Reading) (st : PState) (m : String)
    (h : st.deviceConnected = false) :
    sendTemperatureData r st = (st, []) ∧ sendMessage st.deviceConnected m = [] := by
  obtain ⟨rt, rh⟩ := r
  constructor
  · cases rt <;> cases rh <;> simp [sendTemperatureData, sendMessage, h]
  · simp [sendMessage, h]

/-- C5 witness: with the connected flag down, a good reading produces no
notification and no state change. -/
theorem no_write_when_disconnected_witness :
    Esp32.sendTemperatureData ⟨some 255, some 602⟩ ⟨false, false, true, 0⟩ =
      (⟨false, false, true, 0⟩, []) :=
  (Esp32.no_write_when_disconnected ⟨some 255, some 602⟩ ⟨false, false, true, 0⟩
    "x" rfl).1

/-- C6: one loop() iteration triggers telemetry exactly when a peer is
connected and the unsigned 32-bit elapsed time currentMillis - lastTempUpdate
is at least 2000 ms, and then resets the timer to the current clock; the
final conjunct shows the modular elapsed-time computation recovers the true
elapsed time across clock wraparound (no stall, no misfire). -/
theorem loop_telemetry_timing (r : Reading) (st : PState) (currentMillis : Nat) :
    (st.deviceConnected = true → 2000 ≤ subw currentMillis st.lastTempUpdate →
      loopTick r currentMillis st =
        sendTemperatureData r
          { handleBLEConnection st with lastTempUpdate := currentMillis }) ∧
    (st.deviceConnected = true → subw currentMillis st.lastTempUpdate < 2000 →
      loopTick r currentMillis st = (handleBLEConnection st, [])) ∧
    (st.deviceConnected = false →
      loopTick r currentMillis st = (handleBLEConnection st, [])) ∧
    (∀ last elapsed : Nat, last < M32 → elapsed < M32 →
      subw ((last + elapsed) % M32) last = elapsed) := by
  obtain ⟨hd, ht⟩ := handleBLEConnection_fields st
  refine ⟨?_, ?_, ?_, ?_⟩
  · intro hc hge
    rw [hc] at hd
    simp [loopTick, hd, ht, hge]
  · intro hc hlt
    rw [hc] at hd
    have hnot : ¬ 2000 ≤ subw currentMillis st.lastTempUpdate := by omega
    simp [loopTick, hd, ht, hnot]
  · intro hc
    rw [hc] at hd
    simp [loopTick, hd]
  · intro last elapsed h1 h2
    simp only [subw, M32] at h1 h2 ⊢
    omega

/-- C6 witness: connected, timer at 1500 and clock at 4000 (elapsed 2500 ms)
fires telemetry and resets the timer to 4000; the wraparound identity is
instantiated just below the 32-bit boundary. -/
theorem loop_telemetry_timing_witness :
    Esp32.loopTick ⟨some 255, some 602⟩ 4000 ⟨false, true, true, 1500⟩ =
      (⟨false, true, true, 4000⟩, ["Temperature: 25.5 °C | Humidity: 60.2 %"]) ∧
    Esp32.subw ((4294967000 + 3000) % Esp32.M32) 4294967000 = 3000 :=
  ⟨(Esp32.loop_telemetry_timing ⟨some 255, some 602⟩ ⟨false, true, true, 1500⟩ 4000).1
      rfl (by decide),
   (Esp32.loop_telemetry_timing ⟨some 255, some 602⟩ ⟨false, true, true, 1500⟩ 4000).2.2.2
      4294967000 3000 (by decide) (by decide)⟩

end Esp32

/-! ## Claims about the central controllers -/

/-- C7 counterexample: in the part_000 variant the emptiness check is on the
untrimmed input-field text, so while connected a whitespace-only command — a
command that is empty after trimming — is not dropped: it performs a
transport write of the space plus the appended newline. -/
theorem send_whitespace_written_cex :
    trimText " " = "" ∧
    (Part000.sendCommand ⟨true, " ", [], []⟩).writes = [" \n"] := by decide

/-- C7 amended: in js/ble.js, send() does nothing when the command is empty
after trimming, rejects with a logged error and no transport call when
disconnected, and issues exactly one write of the trimmed command plus a
newline when connected; the part_000 variant checks the connection first and
tests emptiness on the untrimmed input text, so a whitespace-only command is
written rather than dropped, and otherwise also rejects when disconnected and
issues exactly one write of the text plus a newline. -/
theorem send_rejection_and_write (st : BleJs.CState) (stv : Part000.CState)
    (arg : String) :
    (trimText arg = "" → BleJs.sendCommand st (some arg) = st) ∧
    (st.isConnected = false → trimText arg ≠ "" →
      (BleJs.sendCommand st (some arg)).writes = st.writes ∧
      (BleJs.sendCommand st (some arg)).terminal =
        st.terminal ++ [("ERROR", "Not connected to ESP32!")]) ∧
    (st.isConnected = true → st.hasRxCharacteristic = true → trimText arg ≠ "" →
      (BleJs.sendCommand st (some arg)).writes = st.writes ++ [trimText arg ++ "\n"]) ∧
    (stv.isConnected = false →
      Part000.sendCommand stv = Part000.addTerminalLine stv "ERROR" "Not connected.") ∧
    (stv.isConnected = true → stv.commandInputValue = "" →
      Part000.sendCommand stv = stv) ∧
    (stv.isConnected = true → stv.commandInputValue ≠ "" →
      (Part000.sendCommand stv).writes = stv.writes ++ [stv.commandInputValue ++ "\n"]) := by
  refine ⟨?_, ?_, ?_, ?_, ?_, ?_⟩
  · intro h
    simp [BleJs.sendCommand, h]
  · intro hc hne
    simp [BleJs.sendCommand, BleJs.sendCommandToESP32, BleJs.addTerminalLine, hc, hne]
  · intro hc hrx hne
    simp [BleJs.sendCommand, BleJs.sendCommandToESP32, BleJs.addTerminalLine, hc, hrx, hne]
  · intro hc
    simp [Part000.sendCommand, hc]
  · intro hc he
    simp [Part000.sendCommand, hc, he]
  · intro hc hne
    simp [Part000.sendCommand, Part000.addTerminalLine, hc, hne]

/-- C7 witness: connected and with a nonempty trimmed command, ble.js send()
issues exactly one transport write of the trimmed command plus a newline. -/
theorem send_rejection_and_write_witness :
    (BleJs.sendCommand ⟨true, true, "", "--", true, [], []⟩ (some " STATUS ")).writes =
      ["STATUS\n"] :=
  (send_rejection_and_write ⟨true, true, "", "--", true, [], []⟩ ⟨true, "", [], []⟩
    " STATUS ").2.2.1 rfl rfl (by decide)

namespace BleJs

/-- C8 counterexample: the notification "Temperature: N/A" contains the
"Temperature:" substring but no extractable number, so handleNotification
falls through both branches: the raw line is not forwarded to the display
sink (the terminal stays empty) and the live display is not updated — the
claim that the raw line is still displayed fails. -/
theorem notification_dropped_cex :
    (BleJs.handleNotification ⟨true, true, "", "--", true, [], []⟩
        "Temperature: N/A").terminal = [] ∧
    (BleJs.handleNotification ⟨true, true, "", "--", true, [], []⟩
        "Temperature: N/A").tempValue = "--" := by decide

/-- C8 amended: handleNotification trims the decoded text; a line containing
"Temperature:" whose number pattern matches updates the live display to the
matched number and is shown with the antenna glyph; a line without the
"Temperature:" substring is displayed raw; but a line containing
"Temperature:" with no extractable number is dropped entirely (no display, no
update).  The final conjunct is the round trip: the telemetry line for 25.5
degrees yields a display update showing 25.5. -/
theorem handleNotification_cases (st : CState) (raw : String) (n : String) :
    (containsNeedle "Temperature:".data (trimText raw).data = false →
      handleNotification st raw = addTerminalLine st "ESP32" (trimText raw)) ∧
    (containsNeedle "Temperature:".data (trimText raw).data = true →
      tempMatch (trimText raw) = some n →
      handleNotification st raw =
        addTerminalLine (updateTemperature st n) "ESP32" ("📡 " ++ trimText raw)) ∧
    (containsNeedle "Temperature:".data (trimText raw).data = true →
      tempMatch (trimText raw) = none →
      handleNotification st raw = st) ∧
    (handleNotification ⟨true, true, "", "--", true, [], []⟩
        "Temperature: 25.5 °C | Humidity: 60.2 %").tempValue = "25.5" := by
  refine ⟨?_, ?_, ?_, ?_⟩
  · intro h
    simp [handleNotification, h]
  · intro h hm
    simp [handleNotification, h, hm]
  · intro h hm
    simp [handleNotification, h, hm]
  · decide

/-- C8 witness: the incoming telemetry line for 25.5 degrees and 60.2 percent
updates the live display to 25.5 and echoes the line to the terminal. -/
theorem handleNotification_cases_witness :
    BleJs.handleNotification ⟨true, true, "", "--", true, [], []⟩
        "Temperature: 25.5 °C | Humidity: 60.2 %" =
      ⟨true, true, "", "25.5", true,
        [("ESP32", "📡 Temperature: 25.5 °C | Humidity: 60.2 %")], []⟩ :=
  (BleJs.handleNotification_cases ⟨true, true, "", "--", true, [], []⟩
    "Temperature: 25.5 °C | Humidity: 60.2 %" "25.5").2.1 (by decide) (by decide)

/-- C9 counterexample: onDisconnected emits the terminal "ESP32
disconnected!" log entry and clears the connected flag in the very step in
which the transport reports the drop — there is no grace window, so evidence
arriving afterwards that the session is alive cannot prevent the entry or
the transition. -/
theorem disconnect_logged_immediately_cex :
    (BleJs.onDisconnected ⟨true, true, "", "25.5", true, [], []⟩).terminal =
      [("SYSTEM", "ESP32 disconnected!")] ∧
    (BleJs.onDisconnected ⟨true, true, "", "25.5", true, [], []⟩).isConnected = false := by
  decide

/-- C9 amended: ble.js applies no disconnect debounce: onDisconnected
unconditionally and immediately appends the "ESP32 disconnected!" log line,
clears the connected flag, disables the controls and resets the temperature
display; no timer state exists that a later liveness signal could cancel. -/
theorem onDisconnected_immediate (st : CState) :
    onDisconnected st =
      { st with
        isConnected := false
        controlsEnabled := false
        tempValue := "--"
        terminal := st.terminal ++ [("SYSTEM", "ESP32 disconnected!")] } := by
  simp [onDisconnected, addTerminalLine, updateConnectionStatus]

/-- C10: in ble.js initializeApp, the setup code after the Web Bluetooth
support check sits inside the block the check opens, after its return: when
Web Bluetooth is unsupported the function returns first, and when it is
supported the whole block is skipped — on either input initializeApp
registers no event listener, performs no DOM lookup and writes no terminal
line. -/
theorem initializeApp_registers_nothing (b : Bool) :
    (initializeApp b).listeners = [] ∧ (initializeApp b).lookups = [] ∧
    (initializeApp b).terminal = [] := by
  cases b <;> decide

end BleJs

end IotTerminal
